/-
  Verification of the AutoPrintFarm hub firmware core against its
  natural-language specification.

  The definitions below are shallow embeddings of the C++ sources under
  `firmware/src/`:
  * `PrinterStatus.h`            — unified status model and `parseState`
  * `clients/BambuClient.cpp`    — Bambu adapter (status deltas, light control)
  * `printers/BambuMqttClient.cpp` — second Bambu adapter variant
  * `PrinterManager.cpp` + `provisioning/PrinterConfigStore.cpp`
                                 — fleet manager slot table
  * `tunnel/TunnelClient.cpp`    — tunnel state machine, dispatcher, registration
  * `cloud/CloudClient.cpp`      — cloud client state machine variant

  Machine integers are modelled as `Nat` with explicit `% 2^32` where a
  32-bit overflow is observable; temperatures (C++ `float`) are carried as
  `Int` because the code only copies them, never computes with them.
-/
import Mathlib

namespace APF

/-! ## Unified status model (`PrinterStatus.h`) -/

/-- `enum class PrinterState` from `PrinterStatus.h`. -/
inductive PrinterState where
  | OFFLINE
  | IDLE
  | PRINTING
  | PAUSED
  | ERROR
  | UNKNOWN
  deriving DecidableEq, Repr

/-- ASCII lower-casing, per character, as Arduino `String::toLowerCase`
does (`tolower` applied to every byte). -/
def lowerAscii (s : String) : String :=
  String.mk (s.data.map Char.toLower)

/-- `PrinterStatus::parseState` from `PrinterStatus.h` lines 57-73:
lower-cases the raw string and walks the if/else chain. -/
def parseState (stateStr : String) : PrinterState :=
  let lower := lowerAscii stateStr
  if lower = "idle" ∨ lower = "standby" ∨ lower = "ready" then
    PrinterState.IDLE
  else if lower = "printing" ∨ lower = "running" ∨ lower = "busy" then
    PrinterState.PRINTING
  else if lower = "paused" ∨ lower = "pause" then
    PrinterState.PAUSED
  else if lower = "error" ∨ lower = "failed" ∨ lower = "fault" then
    PrinterState.ERROR
  else if lower = "offline" ∨ lower = "disconnected" then
    PrinterState.OFFLINE
  else
    PrinterState.UNKNOWN

/-- `PrinterStatus::stateToString` from `PrinterStatus.h` lines 45-54. -/
def stateToString : PrinterState → String
  | PrinterState.OFFLINE => "offline"
  | PrinterState.IDLE => "idle"
  | PrinterState.PRINTING => "printing"
  | PrinterState.PAUSED => "paused"
  | PrinterState.ERROR => "error"
  | PrinterState.UNKNOWN => "unknown"

/-- The amended §4.2 table, written from the spec's words with the rows the
code does not implement (`finish` → idle, `prepare` → printing) removed:
a case-insensitive table lookup, defaulting to `unknown`. -/
def specParseStateTable (raw : String) : PrinterState :=
  let l := lowerAscii raw
  if l ∈ ["idle", "standby", "ready"] then PrinterState.IDLE
  else if l ∈ ["printing", "running", "busy"] then PrinterState.PRINTING
  else if l ∈ ["paused", "pause"] then PrinterState.PAUSED
  else if l ∈ ["error", "failed", "fault"] then PrinterState.ERROR
  else if l ∈ ["offline", "disconnected"] then PrinterState.OFFLINE
  else PrinterState.UNKNOWN

/-- C2 counterexample: the claim says `finish` (and `prepare`) map to
idle (resp. printing), but `parseState` has no such rows: both fall
through to `UNKNOWN`, case-insensitively (`"FINISH"` likewise). -/
theorem parseState_finish_prepare_unknown :
    parseState "finish" = PrinterState.UNKNOWN ∧
    parseState "FINISH" = PrinterState.UNKNOWN ∧
    parseState "prepare" = PrinterState.UNKNOWN := by
  refine ⟨?_, ?_, ?_⟩ <;> decide

/-- C2 amended: `parseState` is total and agrees with the §4.2 table once
the `finish` and `prepare` rows are dropped; every string outside the table
maps to exactly `unknown`, and case is ignored via lower-casing. -/
theorem parseState_matches_amended_table (s : String) :
    parseState s = specParseStateTable s := by
  unfold parseState specParseStateTable
  simp only [List.mem_cons, List.mem_singleton, List.not_mem_nil, or_false]


/-! ## Bambu status deltas (`clients/BambuClient.cpp` `handleMessage`,
`printers/BambuMqttClient.cpp` `parseStatusJson`) -/

/-- Snapshot held by `BambuClient` (`PrinterStatus` struct, the fields
`handleMessage` touches). Temperatures are carried as `Int`: the code only
copies them. `remainingSeconds` is a C++ `uint32_t`. -/
structure BcStatus where
  connected : Bool
  state : PrinterState
  stateString : String
  filename : String
  progressPercent : Int
  remainingSeconds : Nat
  nozzleTemp : Int
  nozzleTarget : Int
  bedTemp : Int
  bedTarget : Int
  currentLayer : Int
  totalLayers : Int
  lastUpdateMs : Nat
  deriving DecidableEq, Repr

/-- The `print` object of an inbound Bambu frame: every field optional.
A `none` models an absent JSON key (or one of the wrong JSON type, which
the code treats identically). -/
structure PrintDelta where
  nozzle_temper : Option Int := none
  nozzle_target_temper : Option Int := none
  bed_temper : Option Int := none
  bed_target_temper : Option Int := none
  gcode_state : Option String := none
  mc_percent : Option Int := none
  mc_remaining_time : Option Nat := none
  layer_num : Option Int := none
  total_layer_num : Option Int := none
  gcode_file : Option String := none
  deriving DecidableEq, Repr

/-- The Bambu-specific `gcode_state` mapping inside
`BambuClient::handleMessage` lines 237-247. -/
def mapBambuGcode (g : String) : PrinterState :=
  if g = "IDLE" ∨ g = "FINISH" then PrinterState.IDLE
  else if g = "RUNNING" ∨ g = "PREPARE" then PrinterState.PRINTING
  else if g = "PAUSE" then PrinterState.PAUSED
  else if g = "FAILED" then PrinterState.ERROR
  else PrinterState.UNKNOWN

/-- `BambuClient::handleMessage` lines 186-284, applied to a frame whose
JSON parsed. `printObj = none` models a frame without a `print` object
(only the timestamp is updated). `mc_remaining_time` is read as `uint32_t`
and multiplied by 60 in 32-bit arithmetic. -/
def bcHandleMessage (st : BcStatus) (printObj : Option PrintDelta) (now : Nat) :
    BcStatus :=
  let st :=
    match printObj with
    | none => st
    | some d =>
      let st := { st with nozzleTemp := d.nozzle_temper.getD st.nozzleTemp }
      let st := { st with nozzleTarget := d.nozzle_target_temper.getD st.nozzleTarget }
      let st := { st with bedTemp := d.bed_temper.getD st.bedTemp }
      let st := { st with bedTarget := d.bed_target_temper.getD st.bedTarget }
      let st :=
        match d.gcode_state with
        | none => st
        | some g => { st with stateString := g, state := mapBambuGcode g }
      let st := { st with progressPercent := d.mc_percent.getD st.progressPercent }
      let st :=
        match d.mc_remaining_time with
        | none => st
        | some k => { st with remainingSeconds := (k % 2 ^ 32) * 60 % 2 ^ 32 }
      let st := { st with currentLayer := d.layer_num.getD st.currentLayer }
      let st := { st with totalLayers := d.total_layer_num.getD st.totalLayers }
      { st with filename := d.gcode_file.getD st.filename }
  { st with lastUpdateMs := now }

/-- Snapshot row kept by `BambuMqttClient` (`PrinterStatus` struct of that
variant: C-string status plus numeric fields). -/
structure MqStatus where
  serial_number : String
  status : String
  is_connected : Bool
  nozzle_temp : Int
  nozzle_target : Int
  bed_temp : Int
  bed_target : Int
  chamber_temp : Int
  progress_percent : Int
  current_layer : Int
  total_layers : Int
  remaining_time_seconds : Int
  deriving DecidableEq, Repr

/-- The `print` object fields read by `BambuMqttClient::parseStatusJson`. -/
structure MqPrintDelta where
  gcode_state : Option String := none
  nozzle_temper : Option Int := none
  nozzle_target_temper : Option Int := none
  bed_temper : Option Int := none
  bed_target_temper : Option Int := none
  chamber_temper : Option Int := none
  mc_percent : Option Int := none
  layer_num : Option Int := none
  total_layer_num : Option Int := none
  mc_remaining_time : Option Int := none
  deriving DecidableEq, Repr

/-- The `gcode_state` mapping in `parseStatusJson` lines 421-435: the
default (including an absent key, read as `"UNKNOWN"`) is `"idle"`. -/
def mapMqGcode (g : String) : String :=
  if g = "RUNNING" then "printing"
  else if g = "PAUSE" then "paused"
  else if g = "FAILED" then "error"
  else if g = "FINISH" ∨ g = "IDLE" ∨ g = "READY" then "idle"
  else "idle"

/-- `BambuMqttClient::parseStatusJson` lines 391-478, applied to a frame
whose JSON parsed and that carries a `print` object. Note the function
unconditionally rewrites `serial_number`, `is_connected` and `status`
(via `print["gcode_state"] | "UNKNOWN"`), and follows the
update-only-if-present rule for the numeric fields. -/
def parseStatusJson (cfgSerial : String) (st : MqStatus) (d : MqPrintDelta) :
    MqStatus :=
  let st := { st with serial_number := cfgSerial, is_connected := true }
  let st := { st with status := mapMqGcode (d.gcode_state.getD "UNKNOWN") }
  let st := { st with nozzle_temp := d.nozzle_temper.getD st.nozzle_temp }
  let st := { st with nozzle_target := d.nozzle_target_temper.getD st.nozzle_target }
  let st := { st with bed_temp := d.bed_temper.getD st.bed_temp }
  let st := { st with bed_target := d.bed_target_temper.getD st.bed_target }
  let st := { st with chamber_temp := d.chamber_temper.getD st.chamber_temp }
  let st := { st with progress_percent := d.mc_percent.getD st.progress_percent }
  let st := { st with current_layer := d.layer_num.getD st.current_layer }
  let st := { st with total_layers := d.total_layer_num.getD st.total_layers }
  match d.mc_remaining_time with
  | none => st
  | some m => { st with remaining_time_seconds := m * 60 }

/-- A concrete prior snapshot used in the C3 counterexample. -/
def mqPrior : MqStatus :=
  { serial_number := "S1", status := "printing", is_connected := true
    nozzle_temp := 210, nozzle_target := 210, bed_temp := 60, bed_target := 60
    chamber_temp := 0, progress_percent := 42, current_layer := 10
    total_layers := 100, remaining_time_seconds := 1800 }

/-- C3 counterexample: in the `BambuMqttClient` variant, a delta frame whose
`print` object carries only `nozzle_temper` (no `gcode_state`) does not
leave the absent `status` field at its prior value `"printing"`; the code
reads the absent key as `"UNKNOWN"` and overwrites `status` with `"idle"`. -/
theorem parseStatusJson_zeroes_absent_status :
    (parseStatusJson "S1" mqPrior { nozzle_temper := some 211 }).status = "idle" ∧
    mqPrior.status = "printing" := by
  exact ⟨rfl, rfl⟩

/-- C3 amended: field-by-field effect of applying a status delta.
In `BambuClient::handleMessage`, every snapshot field absent from the
frame's `print` object keeps its prior value and every present field takes
the frame's value (`gcode_state` also re-deriving the state enum, and a
present `mc_remaining_time = k` setting `remainingSeconds` to `60·k` in
32-bit arithmetic); `lastUpdateMs` is always advanced. In
`BambuMqttClient::parseStatusJson` the same present-only rule holds for
the numeric fields, but `status`, `serial_number` and `is_connected` are
rewritten even when absent from the frame (an absent `gcode_state` forcing
`status := "idle"`). -/
theorem statusDelta_field_effects :
    (∀ (st : BcStatus) (d : PrintDelta) (now : Nat),
      (bcHandleMessage st (some d) now).nozzleTemp
          = d.nozzle_temper.getD st.nozzleTemp ∧
      (bcHandleMessage st (some d) now).nozzleTarget
          = d.nozzle_target_temper.getD st.nozzleTarget ∧
      (bcHandleMessage st (some d) now).bedTemp
          = d.bed_temper.getD st.bedTemp ∧
      (bcHandleMessage st (some d) now).bedTarget
          = d.bed_target_temper.getD st.bedTarget ∧
      (bcHandleMessage st (some d) now).stateString
          = d.gcode_state.getD st.stateString ∧
      (bcHandleMessage st (some d) now).state
          = (match d.gcode_state with
             | none => st.state
             | some g => mapBambuGcode g) ∧
      (bcHandleMessage st (some d) now).progressPercent
          = d.mc_percent.getD st.progressPercent ∧
      (bcHandleMessage st (some d) now).remainingSeconds
          = (match d.mc_remaining_time with
             | none => st.remainingSeconds
             | some k => (k % 2 ^ 32) * 60 % 2 ^ 32) ∧
      (bcHandleMessage st (some d) now).currentLayer
          = d.layer_num.getD st.currentLayer ∧
      (bcHandleMessage st (some d) now).totalLayers
          = d.total_layer_num.getD st.totalLayers ∧
      (bcHandleMessage st (some d) now).filename
          = d.gcode_file.getD st.filename ∧
      (bcHandleMessage st (some d) now).connected = st.connected ∧
      (bcHandleMessage st (some d) now).lastUpdateMs = now) ∧
    (∀ (cs : String) (st : MqStatus) (d : MqPrintDelta),
      (parseStatusJson cs st d).status
          = mapMqGcode (d.gcode_state.getD "UNKNOWN") ∧
      (parseStatusJson cs st d).serial_number = cs ∧
      (parseStatusJson cs st d).is_connected = true ∧
      (parseStatusJson cs st d).nozzle_temp
          = d.nozzle_temper.getD st.nozzle_temp ∧
      (parseStatusJson cs st d).nozzle_target
          = d.nozzle_target_temper.getD st.nozzle_target ∧
      (parseStatusJson cs st d).bed_temp
          = d.bed_temper.getD st.bed_temp ∧
      (parseStatusJson cs st d).bed_target
          = d.bed_target_temper.getD st.bed_target ∧
      (parseStatusJson cs st d).chamber_temp
          = d.chamber_temper.getD st.chamber_temp ∧
      (parseStatusJson cs st d).progress_percent
          = d.mc_percent.getD st.progress_percent ∧
      (parseStatusJson cs st d).current_layer
          = d.layer_num.getD st.current_layer ∧
      (parseStatusJson cs st d).total_layers
          = d.total_layer_num.getD st.total_layers ∧
      (parseStatusJson cs st d).remaining_time_seconds
          = (match d.mc_remaining_time with
             | none => st.remaining_time_seconds
             | some m => m * 60)) := by
  constructor
  · intro st d now
    cases hg : d.gcode_state <;> cases hr : d.mc_remaining_time <;>
      simp [bcHandleMessage, hg, hr]
  · intro cs st d
    cases hr : d.mc_remaining_time <;> simp [parseStatusJson, hr]

/-! ## Light control (`BambuClient::setLight`, `BambuMqttClient::setLight`) -/

/-- Fields of a `ledctrl` command object. -/
structure LedCtrl where
  sequence_id : String
  command : String
  led_node : String
  led_mode : String
  led_on_time : Nat
  led_off_time : Nat
  loop_times : Nat
  interval_time : Nat
  deriving DecidableEq, Repr

/-- One MQTT publish of a `{"<group>": {...}}` envelope. -/
structure MqttPub where
  topic : String
  group : String
  payload : LedCtrl
  deriving DecidableEq, Repr

/-- `BambuClient::setLight` lines 347-361 together with
`sendCommand` lines 290-314 and `getNextSequenceId` (a pre-incremented
`uint32_t`). The sequence counter is bumped while the command is built,
before `sendCommand` checks connectivity. Returns the new sequence
counter, the publishes that reached the transport, and the result. -/
def bcSetLight (serial : String) (connected : Bool) (seq : Nat) (turnOn : Bool)
    (pubOk : Bool) : Nat × List MqttPub × Bool :=
  let seq' := (seq + 1) % 2 ^ 32
  let cmd : LedCtrl :=
    { sequence_id := toString seq', command := "ledctrl"
      led_node := "chamber_light", led_mode := if turnOn then "on" else "off"
      led_on_time := 500, led_off_time := 500
      loop_times := 0, interval_time := 0 }
  if connected then
    (seq', [{ topic := "device/" ++ serial ++ "/request", group := "system", payload := cmd }], pubOk)
  else
    (seq', [], false)

/-- `BambuMqttClient::setLight` lines 334-377: guarded by printer lookup
and connectivity, then two fixed `ledctrl` payloads (chamber then work
light), both with the literal `"sequence_id":"0"`, returning true iff at
least one publish succeeded. -/
def mqSetLight (serial : String) (found connected : Bool) (turnOn : Bool)
    (pub1Ok pub2Ok : Bool) : List MqttPub × Bool :=
  if ¬found then ([], false)
  else if ¬connected then ([], false)
  else
    let mode := if turnOn then "on" else "off"
    let mk : String → LedCtrl := fun node =>
      { sequence_id := "0", command := "ledctrl", led_node := node
        led_mode := mode, led_on_time := 500, led_off_time := 500
        loop_times := 1, interval_time := 1000 }
    let topic := "device/" ++ serial ++ "/request"
    ([{ topic := topic, group := "system", payload := mk "chamber_light" },
      { topic := topic, group := "system", payload := mk "work_light" }],
     pub1Ok || pub2Ok)

/-- C9 counterexample: the connected `BambuClient` adapter publishes
exactly one `ledctrl` envelope (chamber light only), with
`loop_times = 0` and `interval_time = 0`, not the two envelopes with
`loop_times = 1`, `interval_time = 1000` that the claim states. -/
theorem bcSetLight_single_envelope :
    (bcSetLight "S1" true 0 true true).2.1.length = 1 ∧
    (bcSetLight "S1" true 0 true true).2.1.map (fun p => p.payload.led_node)
      = ["chamber_light"] ∧
    (bcSetLight "S1" true 0 true true).2.1.map (fun p => p.payload.loop_times)
      = [0] := by
  exact ⟨rfl, rfl, rfl⟩

/-- C9 amended: the `BambuMqttClient` variant publishes exactly the
chamber-light and work-light `ledctrl` envelopes (each with on/off mode,
on/off times 500 ms, `loop_times 1`, `interval_time 1000`, but the fixed
sequence id `"0"`, not a fresh one) to the printer's request topic and
returns ok iff at least one publish succeeds; the `BambuClient` adapter
instead publishes a single chamber-light envelope with a fresh sequence
id, `loop_times 0` and `interval_time 0`, returning that publish's result. -/
theorem setLight_fanout_effects :
    (∀ (serial : String) (turnOn pub1Ok pub2Ok : Bool),
      mqSetLight serial true true turnOn pub1Ok pub2Ok =
        ([{ topic := "device/" ++ serial ++ "/request", group := "system"
            payload := { sequence_id := "0", command := "ledctrl"
                         led_node := "chamber_light"
                         led_mode := if turnOn then "on" else "off"
                         led_on_time := 500, led_off_time := 500
                         loop_times := 1, interval_time := 1000 } },
          { topic := "device/" ++ serial ++ "/request", group := "system"
            payload := { sequence_id := "0", command := "ledctrl"
                         led_node := "work_light"
                         led_mode := if turnOn then "on" else "off"
                         led_on_time := 500, led_off_time := 500
                         loop_times := 1, interval_time := 1000 } }],
         pub1Ok || pub2Ok)) ∧
    (∀ (serial : String) (seq : Nat) (turnOn pubOk : Bool),
      bcSetLight serial true seq turnOn pubOk =
        ((seq + 1) % 2 ^ 32,
         [{ topic := "device/" ++ serial ++ "/request", group := "system"
            payload := { sequence_id := toString ((seq + 1) % 2 ^ 32)
                         command := "ledctrl", led_node := "chamber_light"
                         led_mode := if turnOn then "on" else "off"
                         led_on_time := 500, led_off_time := 500
                         loop_times := 0, interval_time := 0 } }],
         pubOk)) := by
  constructor
  · intro serial turnOn pub1Ok pub2Ok
    simp [mqSetLight]
  · intro serial seq turnOn pubOk
    simp [bcSetLight]

/-! ## Registration (`TunnelClient::registerWithCloud` lines 749-848) -/

/-- Outcome of the registration POST as the code classifies it.
`code` is the value `HTTPClient::POST` returned (negative on transport
failure), `bodyParses` whether `deserializeJson` succeeds on the
response body. Returns the new persisted `registered` flag and the
function's boolean result. On 200/201 the flag is persisted only after
the body parsed; on 409 unconditionally; otherwise nothing is stored. -/
def registerOutcome (code : Int) (bodyParses : Bool) (registered : Bool) :
    Bool × Bool :=
  if code = 200 ∨ code = 201 then
    if bodyParses then (true, true) else (registered, false)
  else if code = 409 then (true, true)
  else (registered, false)

/-- C8 counterexample: an HTTP 200 whose response body is not valid JSON
does not persist `registered = true` and returns failure, contradicting
the claim's "regardless of the response body's content". -/
theorem registerOutcome_200_bad_body :
    registerOutcome 200 false false = (false, false) := by
  rfl

/-- C8 amended: 200/201 persist `registered = true` and return success
iff the response body parses as JSON (an unparsable body persists
nothing and fails); 409 persists and succeeds regardless of body; every
other code — including negative transport-failure codes — persists
nothing and returns failure. -/
theorem registerOutcome_classification (code : Int) (bodyParses registered : Bool) :
    ((code = 200 ∨ code = 201) → bodyParses = true →
        registerOutcome code bodyParses registered = (true, true)) ∧
    ((code = 200 ∨ code = 201) → bodyParses = false →
        registerOutcome code bodyParses registered = (registered, false)) ∧
    (code = 409 → registerOutcome code bodyParses registered = (true, true)) ∧
    (¬(code = 200 ∨ code = 201 ∨ code = 409) →
        registerOutcome code bodyParses registered = (registered, false)) := by
  refine ⟨?_, ?_, ?_, ?_⟩ <;> intro h
  · intro hb; simp [registerOutcome, h, hb]
  · intro hb; simp [registerOutcome, h, hb]
  · have : ¬(code = 200 ∨ code = 201) := by omega
    simp [registerOutcome, this, h]
  · push_neg at h
    obtain ⟨h1, h2, h3⟩ := h
    simp [registerOutcome, h1, h2, h3]

/-- Witness for the C8 classification at concrete inputs. -/
theorem registerOutcome_classification_witness :
    registerOutcome 409 false false = (true, true) ∧
    registerOutcome 500 true false = (false, false) := by
  constructor
  · exact (registerOutcome_classification 409 false false).2.2.1 rfl
  · exact (registerOutcome_classification 500 true false).2.2.2 (by omega)

/-! ## Reconnect backoff (`TunnelClient::getReconnectDelay` lines 637-650,
`CloudClient::getReconnectDelay` lines 482-489) -/

/-- The doubling loop body of `TunnelClient::getReconnectDelay`:
`iters` remaining loop iterations, `d` the accumulator; doubling that
exceeds 60 000 clamps and breaks. -/
def tunnelDelayLoop : Nat → Nat → Nat
  | 0, d => d
  | n + 1, d =>
    let d' := d * 2
    if d' > 60000 then 60000 else tunnelDelayLoop n d'

/-- Modelled from the spec: the `TUNNEL_RECONNECT_INITIAL_MS` (1000) and
`TUNNEL_RECONNECT_MAX_MS` (60000) macros used by `TunnelClient.cpp` are
not defined anywhere under `src/`; §4.5 fixes them to 1 s and 60 s.
The loop itself is the one at `TunnelClient.cpp` lines 637-650: it runs
`min(attempts, 10)` times over a `uint8_t` counter. -/
def tunnelReconnectDelay (attempts : Nat) : Nat :=
  tunnelDelayLoop (min attempts 10) 1000

/-- `CloudClient::getReconnectDelay` lines 482-489:
`CLOUD_RECONNECT_INITIAL_MS << _reconnectAttempts` in 32-bit arithmetic
(`config.h`: initial 1000, max 60000), then clamped to the maximum. -/
def cloudReconnectDelay (attempts : Nat) : Nat :=
  let d := 1000 * 2 ^ attempts % 2 ^ 32
  if d > 60000 then 60000 else d

/-- C5 counterexample: the two delay functions do not compute the same
value for every attempt counter, and the left-shift variant departs from
`min(1000·2^i, 60000)`: at `i = 29` the 32-bit shift wraps to 0
(1000·2²⁹ = 125·2³²), so the cloud variant yields a 0 ms delay while the
loop variant (and the claimed formula) give 60 000 ms. -/
theorem reconnectDelay_diverges_at_29 :
    cloudReconnectDelay 29 = 0 ∧
    tunnelReconnectDelay 29 = 60000 ∧
    min (1000 * 2 ^ 29) 60000 = 60000 := by
  refine ⟨by decide, by decide, by decide⟩

/-! ## Tunnel state machine (`tunnel/TunnelClient.cpp`) -/

/-- `enum class TunnelState` from `TunnelClient.h`. -/
inductive TState where
  | OFFLINE
  | REGISTERING
  | CONNECTING
  | AUTHENTICATING
  | CONNECTED
  | RECONNECTING
  | FAILED
  deriving DecidableEq, Repr

/-- The `TunnelClient` machine state: the `_state` field, whether the
WebSocket is open, the persisted `registered` flag of the config store,
the `uint8_t` `_reconnectAttempts`, and the timing fields. -/
structure TunnelM where
  state : TState
  sockOpen : Bool
  registered : Bool
  attempts : Nat
  authStart : Nat
  lastPing : Nat
  lastPong : Nat
  lastAttempt : Nat
  deriving DecidableEq, Repr

/-- Process start: `_state = OFFLINE`, all counters zero; `reg` is
whatever the config store holds. -/
def tunnelInit (reg : Bool) : TunnelM :=
  { state := TState.OFFLINE, sockOpen := false, registered := reg
    attempts := 0, authStart := 0, lastPing := 0, lastPong := 0
    lastAttempt := 0 }

/-- Environment outcomes consumed by one `connect()` call: the HTTP
registration response (code, body-parses) and whether the blocking
WebSocket connect succeeded. -/
structure ConnEnv where
  regCode : Int
  regParses : Bool
  connOk : Bool
  deriving DecidableEq, Repr

/-- The tail of `TunnelClient::connect()` (lines 92-113): enter
CONNECTING and attempt the WebSocket handshake. The ArduinoWebsockets
library fires `ConnectionOpened` synchronously inside `connect()`, so a
successful handshake lands in AUTHENTICATING via `onConnect()`
(lines 149-157) before control returns. -/
def tconnectWs (m : TunnelM) (now : Nat) (connOk : Bool) : TunnelM :=
  let m := { m with state := TState.CONNECTING }
  if connOk then
    { m with state := TState.AUTHENTICATING, sockOpen := true
             authStart := now, lastPong := now }
  else
    { m with state := TState.RECONNECTING, sockOpen := false
             lastAttempt := now }

/-- `TunnelClient::connect()` lines 64-114: no-op while connecting,
registering or connected; OFFLINE without WiFi; one-time registration
(via `registerWithCloud`, classified by `registerOutcome`) when the
store's `registered` flag is unset, failing into RECONNECTING. -/
def tconnect (m : TunnelM) (now : Nat) (wifiUp : Bool) (env : ConnEnv) : TunnelM :=
  if m.state = TState.CONNECTING ∨ m.state = TState.CONNECTED ∨
     m.state = TState.REGISTERING then m
  else if ¬wifiUp then { m with state := TState.OFFLINE }
  else if ¬m.registered then
    let r := registerOutcome env.regCode env.regParses m.registered
    let m := { m with state := TState.REGISTERING, registered := r.1 }
    if ¬r.2 then { m with state := TState.RECONNECTING, lastAttempt := now }
    else tconnectWs m now env.connOk
  else tconnectWs m now env.connOk

/-- Events driving the tunnel machine. Message events can only take
effect while the socket is open; environment outcomes ride on the
event. -/
inductive TEvent where
  | connectCall (now : Nat) (wifiUp : Bool) (env : ConnEnv)
  | disconnectCall
  | sockClosed (now : Nat)
  | msgWelcome (now : Nat)
  | msgOther
  | pollTick (now : Nat) (wifiUp : Bool) (env : ConnEnv)
  deriving DecidableEq, Repr

/-- One step of the `TunnelClient` machine: `disconnect()` lines 116-125,
`onDisconnect()` lines 159-169, `handleHubWelcome` lines 218-233 and
`poll()` lines 536-650 (with `handleHeartbeat` and `attemptReconnect`).
Modelled from the spec: the timing macros `TUNNEL_AUTH_TIMEOUT_MS`
(10 s), `TUNNEL_PING_INTERVAL_MS` (25 s), `TUNNEL_PONG_TIMEOUT_MS`
(60 s) and `TUNNEL_MAX_RECONNECT_ATTEMPTS` (10) used by
`TunnelClient.cpp` are not defined anywhere under `src/`; their values
are §4.5's. -/
def tstep (m : TunnelM) (e : TEvent) : TunnelM :=
  match e with
  | TEvent.connectCall now wifiUp env =>
    -- the firmware issues connect() from the WiFi-up handler or after
    -- disconnect(), i.e. only while no socket is open
    if m.sockOpen then m else tconnect m now wifiUp env
  | TEvent.disconnectCall =>
    if m.state = TState.OFFLINE then m
    else { m with sockOpen := false, state := TState.OFFLINE, attempts := 0 }
  | TEvent.sockClosed now =>
    if ¬m.sockOpen then m
    else
      let m := { m with sockOpen := false }
      if m.state = TState.CONNECTED ∨ m.state = TState.AUTHENTICATING then
        { m with state := TState.RECONNECTING, lastAttempt := now }
      else { m with state := TState.OFFLINE }
  | TEvent.msgWelcome now =>
    if ¬m.sockOpen then m
    else { m with state := TState.CONNECTED, attempts := 0, lastPing := now }
  | TEvent.msgOther => m
  | TEvent.pollTick now wifiUp env =>
    if ¬wifiUp then
      if m.state ≠ TState.OFFLINE then
        { m with sockOpen := false, state := TState.OFFLINE }
      else m
    else
      match m.state with
      | TState.OFFLINE => m
      | TState.REGISTERING => m
      | TState.CONNECTING => m
      | TState.AUTHENTICATING =>
        if now - m.authStart > 10000 then
          { m with sockOpen := false, state := TState.RECONNECTING
                   lastAttempt := now }
        else m
      | TState.CONNECTED =>
        let m := if now - m.lastPing ≥ 25000 then { m with lastPing := now } else m
        if now - m.lastPong > 60000 then
          { m with sockOpen := false, state := TState.RECONNECTING
                   lastAttempt := now }
        else m
      | TState.RECONNECTING =>
        if now - m.lastAttempt < tunnelReconnectDelay m.attempts then m
        else
          let m := { m with attempts := (m.attempts + 1) % 256, lastAttempt := now }
          if m.attempts > 10 then { m with state := TState.FAILED }
          else tconnect m now wifiUp env
      | TState.FAILED => m

/-- States reachable by the tunnel machine from process start. -/
inductive TReach : TunnelM → Prop where
  | init (reg : Bool) : TReach (tunnelInit reg)
  | step {m : TunnelM} (h : TReach m) (e : TEvent) : TReach (tstep m e)

/-! ## Cloud client state machine (`cloud/CloudClient.cpp`) -/

/-- `enum class CloudState` from `CloudClient.h` (no REGISTERING in this
variant). -/
inductive CState where
  | OFFLINE
  | CONNECTING
  | AUTHENTICATING
  | CONNECTED
  | RECONNECTING
  | FAILED
  deriving DecidableEq, Repr

/-- State of the `CloudClient` machine. -/
structure CloudM where
  state : CState
  sockOpen : Bool
  attempts : Nat
  lastActivity : Nat
  lastPing : Nat
  lastAttempt : Nat
  authStart : Nat
  failedStart : Nat
  cloudDisabled : Bool
  deriving DecidableEq, Repr

/-- Constructor state (`CloudClient.cpp` lines 9-20). -/
def cloudInit : CloudM :=
  { state := CState.OFFLINE, sockOpen := false, attempts := 0
    lastActivity := 0, lastPing := 0, lastAttempt := 0, authStart := 0
    failedStart := 0, cloudDisabled := false }

/-- `CloudClient::transitionTo` lines 532-557: no-op on a same-state
transition, otherwise switch and run the per-state initialisation
(FAILED stamps `_failedStateStartTime`, RECONNECTING zeroes
`_lastReconnectAttempt` for an immediate first retry). -/
def ctransition (m : CloudM) (s : CState) (now : Nat) : CloudM :=
  if m.state = s then m
  else
    let m := { m with state := s }
    match s with
    | CState.FAILED => { m with failedStart := now }
    | CState.RECONNECTING => { m with lastAttempt := 0 }
    | _ => m

/-- `CloudClient::onConnect` lines 177-186: reset the attempt counter,
stamp activity, enter AUTHENTICATING and start the auth timer. Fired
synchronously by a successful WebSocket connect. -/
def conOnConnect (m : CloudM) (now : Nat) : CloudM :=
  let m := { m with attempts := 0, lastActivity := now, sockOpen := true }
  let m := ctransition m CState.AUTHENTICATING now
  { m with authStart := now }

/-- `CloudClient::connect` lines 42-73: only from OFFLINE or
RECONNECTING, requires a hub configuration, then CONNECTING and the
handshake (success lands in AUTHENTICATING via `onConnect`). -/
def cconnect (m : CloudM) (now : Nat) (hasConfig connOk : Bool) : CloudM :=
  if ¬(m.state = CState.OFFLINE ∨ m.state = CState.RECONNECTING) then m
  else if ¬hasConfig then m
  else
    let m := ctransition m CState.CONNECTING now
    if connOk then conOnConnect m now
    else ctransition m CState.RECONNECTING now

/-- Events driving the cloud machine. -/
inductive CEvent where
  | connectCall (now : Nat) (hasConfig connOk : Bool)
  | disconnectCall (now : Nat)
  | sockClosed (now : Nat)
  | msgWelcome (now : Nat)
  | msgOther (now : Nat)
  | msgHubDisconnect (now : Nat)
  | pollTick (now : Nat) (connOk : Bool)
  deriving DecidableEq, Repr

/-- One step of the `CloudClient` machine: `disconnect` lines 75-79,
`onDisconnect` lines 188-194, `onMessage`/`handleHubWelcome`
lines 219-289 (activity stamped on every inbound message; the
CONNECTED transition is guarded by AUTHENTICATING), the `hub_command`
disconnect action lines 383-395, and `poll` lines 81-126 with
`handleHeartbeat` lines 563-579 and `attemptReconnect` lines 491-530. -/
def cstep (m : CloudM) (e : CEvent) : CloudM :=
  match e with
  | CEvent.connectCall now hasConfig connOk => cconnect m now hasConfig connOk
  | CEvent.disconnectCall now =>
    ctransition { m with sockOpen := false } CState.OFFLINE now
  | CEvent.sockClosed now =>
    if ¬m.sockOpen then m
    else
      let m := { m with sockOpen := false }
      if m.state = CState.CONNECTED ∨ m.state = CState.AUTHENTICATING then
        ctransition m CState.RECONNECTING now
      else m
  | CEvent.msgWelcome now =>
    if ¬m.sockOpen then m
    else
      let m := { m with lastActivity := now }
      if m.state = CState.AUTHENTICATING then
        { ctransition m CState.CONNECTED now with lastPing := now }
      else m
  | CEvent.msgOther now =>
    if ¬m.sockOpen then m else { m with lastActivity := now }
  | CEvent.msgHubDisconnect now =>
    if ¬m.sockOpen then m
    else
      let m := { m with lastActivity := now, cloudDisabled := true }
      ctransition { m with sockOpen := false } CState.OFFLINE now
  | CEvent.pollTick now connOk =>
    match m.state with
    | CState.OFFLINE => m
    | CState.CONNECTING => m
    | CState.AUTHENTICATING =>
      if now - m.authStart > 10000 then
        ctransition { m with sockOpen := false } CState.RECONNECTING now
      else m
    | CState.CONNECTED =>
      let m := if now - m.lastPing > 25000 then { m with lastPing := now } else m
      if now - m.lastActivity > 60000 then
        ctransition { m with sockOpen := false } CState.RECONNECTING now
      else m
    | CState.RECONNECTING =>
      if now - m.lastAttempt < cloudReconnectDelay m.attempts then m
      else
        let m := { m with attempts := (m.attempts + 1) % 256, lastAttempt := now }
        if m.attempts > 20 then ctransition m CState.FAILED now
        else if connOk then conOnConnect m now
        else m
    | CState.FAILED =>
      if now - m.failedStart > 300000 then
        ctransition { m with attempts := 0 } CState.OFFLINE now
      else m

/-- States reachable by the cloud machine from process start. -/
inductive CReach : CloudM → Prop where
  | init : CReach cloudInit
  | step {m : CloudM} (h : CReach m) (e : CEvent) : CReach (cstep m e)


/-- Socket-open invariant of the tunnel machine: an open WebSocket means
the machine is authenticating or connected. -/
def TunnelInv (m : TunnelM) : Prop :=
  m.sockOpen = true →
    m.state = TState.AUTHENTICATING ∨ m.state = TState.CONNECTED

lemma tstep_inv (m : TunnelM) (e : TEvent) (hm : TunnelInv m) :
    TunnelInv (tstep m e) := by
  obtain ⟨st, so, reg, att, aS, lP, lPo, lA⟩ := m
  simp only [TunnelInv] at hm ⊢
  cases e <;> cases st <;> cases so <;>
    simp_all [tstep, tconnect, tconnectWs] <;>
    split_ifs <;> simp_all

lemma treach_inv {m : TunnelM} (h : TReach m) : TunnelInv m := by
  induction h with
  | init reg => intro hso; simp [tunnelInit] at hso
  | step _ e ih => exact tstep_inv _ e ih

lemma tstep_connected_entry (m : TunnelM) (e : TEvent) (hm : TunnelInv m)
    (hne : m.state ≠ TState.CONNECTED)
    (h : (tstep m e).state = TState.CONNECTED) :
    m.state = TState.AUTHENTICATING ∧ ∃ now, e = TEvent.msgWelcome now := by
  obtain ⟨st, so, reg, att, aS, lP, lPo, lA⟩ := m
  simp only [TunnelInv] at hm
  cases e <;> cases st <;> cases so <;>
    simp_all [tstep, tconnect, tconnectWs] <;>
    split_ifs at h <;> simp_all

lemma cstep_connected_entry (m : CloudM) (e : CEvent)
    (hne : m.state ≠ CState.CONNECTED)
    (h : (cstep m e).state = CState.CONNECTED) :
    m.state = CState.AUTHENTICATING ∧ ∃ now, e = CEvent.msgWelcome now := by
  obtain ⟨st, so, att, lAc, lP, lA, aS, fS, cd⟩ := m
  cases e <;> cases st <;> cases so <;>
    simp_all [cstep, cconnect, conOnConnect, ctransition] <;>
    split_ifs at h <;> simp_all

/-- C4: in every reachable execution, a step that enters CONNECTED both
starts from AUTHENTICATING and processes a received `hub_welcome`
message — in `TunnelClient` (where `handleHubWelcome` has no state
guard, the property relies on the invariant that an open socket implies
AUTHENTICATING or CONNECTED) and in `CloudClient` (whose
`handleHubWelcome` guards on AUTHENTICATING explicitly). -/
theorem connected_only_via_welcome_from_authenticating :
    (∀ (m : TunnelM), TReach m → ∀ (e : TEvent),
        m.state ≠ TState.CONNECTED →
        (tstep m e).state = TState.CONNECTED →
        m.state = TState.AUTHENTICATING ∧
          ∃ now, e = TEvent.msgWelcome now) ∧
    (∀ (m : CloudM) (e : CEvent),
        m.state ≠ CState.CONNECTED →
        (cstep m e).state = CState.CONNECTED →
        m.state = CState.AUTHENTICATING ∧
          ∃ now, e = CEvent.msgWelcome now) := by
  constructor
  · intro m hr e hne h
    exact tstep_connected_entry m e (treach_inv hr) hne h
  · intro m e hne h
    exact cstep_connected_entry m e hne h

/-- Witness for C4 at a concrete reachable state: after a successful
`connect()` the tunnel is AUTHENTICATING, and the `hub_welcome` step
into CONNECTED is recognised as such. -/
theorem connected_only_via_welcome_witness :
    (tstep (tunnelInit true)
        (TEvent.connectCall 5 true ⟨200, true, true⟩)).state
      = TState.AUTHENTICATING ∧
    ∃ now, (TEvent.msgWelcome 7 : TEvent) = TEvent.msgWelcome now := by
  exact connected_only_via_welcome_from_authenticating.1
    (tstep (tunnelInit true) (TEvent.connectCall 5 true ⟨200, true, true⟩))
    (TReach.step (TReach.init true) (TEvent.connectCall 5 true ⟨200, true, true⟩))
    (TEvent.msgWelcome 7) (by decide) (by decide)

lemma tunnelDelayLoop_eq (n : Nat) :
    ∀ d, 0 < d → d ≤ 60000 →
      tunnelDelayLoop n d = min (d * 2 ^ n) 60000 := by
  induction n with
  | zero =>
    intro d hd hle
    simp only [tunnelDelayLoop, pow_zero, mul_one]
    omega
  | succ n ih =>
    intro d hd hle
    simp only [tunnelDelayLoop]
    split_ifs with h
    · have h1 : 1 ≤ 2 ^ n := Nat.one_le_two_pow
      have h2 : d * 2 ≤ d * 2 ^ (n + 1) := by
        have : 2 ≤ 2 ^ (n + 1) := by
          rw [pow_succ]
          omega
        exact Nat.mul_le_mul_left d this
      omega
    · rw [ih (d * 2) (by omega) (by omega)]
      have : d * 2 * 2 ^ n = d * 2 ^ (n + 1) := by ring
      rw [this]

lemma tunnelReconnectDelay_eq (i : Nat) :
    tunnelReconnectDelay i = min (1000 * 2 ^ i) 60000 := by
  unfold tunnelReconnectDelay
  rcases le_or_lt i 10 with h | h
  · rw [Nat.min_eq_left h, tunnelDelayLoop_eq i 1000 (by omega) (by omega)]
  · rw [Nat.min_eq_right (by omega), tunnelDelayLoop_eq 10 1000 (by omega) (by omega)]
    have h2 : 2 ^ 10 ≤ 2 ^ i := Nat.pow_le_pow_right (by omega) (by omega)
    have h3 : (2 : Nat) ^ 10 = 1024 := by norm_num
    have h4 : 1000 * 1024 ≤ 1000 * 2 ^ i := by
      calc 1000 * 1024 = 1000 * 2 ^ 10 := by rw [h3]
        _ ≤ 1000 * 2 ^ i := Nat.mul_le_mul_left 1000 h2
    omega

/-- Attempt-counter invariant of the cloud machine: while authenticating
the counter is zero (it was reset by `onConnect`). -/
def CloudAuthInv (m : CloudM) : Prop :=
  m.state = CState.AUTHENTICATING → m.attempts = 0

lemma cstep_authinv (m : CloudM) (e : CEvent) (hm : CloudAuthInv m) :
    CloudAuthInv (cstep m e) := by
  obtain ⟨st, so, att, lAc, lP, lA, aS, fS, cd⟩ := m
  simp only [CloudAuthInv] at hm ⊢
  cases e <;> cases st <;> cases so <;>
    simp_all [cstep, cconnect, conOnConnect, ctransition] <;>
    split_ifs <;> simp_all

lemma creach_authinv {m : CloudM} (h : CReach m) : CloudAuthInv m := by
  induction h with
  | init => intro hst; simp [cloudInit]
  | step _ e ih => exact cstep_authinv _ e ih

lemma tstep_enter_connected_attempts (m : TunnelM) (e : TEvent)
    (hne : m.state ≠ TState.CONNECTED)
    (h : (tstep m e).state = TState.CONNECTED) :
    (tstep m e).attempts = 0 := by
  obtain ⟨st, so, reg, att, aS, lP, lPo, lA⟩ := m
  cases e <;> cases st <;> cases so <;>
    simp_all [tstep, tconnect, tconnectWs] <;>
    split_ifs at h <;> simp_all

lemma cstep_enter_connected_attempts (m : CloudM) (e : CEvent)
    (hinv : CloudAuthInv m) (hne : m.state ≠ CState.CONNECTED)
    (h : (cstep m e).state = CState.CONNECTED) :
    (cstep m e).attempts = 0 := by
  obtain ⟨st, so, att, lAc, lP, lA, aS, fS, cd⟩ := m
  simp only [CloudAuthInv] at hinv
  cases e <;> cases st <;> cases so <;>
    simp_all [cstep, cconnect, conOnConnect, ctransition] <;>
    split_ifs at h <;> simp_all

/-- C5 amended: the loop-doubling delay of `TunnelClient` equals
`min(1000·2^i, 60000)` for every attempt counter `i`; the left-shift
delay of `CloudClient` equals the same formula for every `i ≤ 28` (it
wraps modulo 2³² beyond, which no reachable counter — capped by the
max-attempt checks — ever exercises). A retry fires only once
`now − last_attempt ≥ delay`, and both machines have a zero attempt
counter on every transition into CONNECTED. -/
theorem reconnect_backoff_amended :
    (∀ i, tunnelReconnectDelay i = min (1000 * 2 ^ i) 60000) ∧
    (∀ i, i ≤ 28 → cloudReconnectDelay i = min (1000 * 2 ^ i) 60000) ∧
    (∀ (m : TunnelM) (now : Nat) (env : ConnEnv),
        m.state = TState.RECONNECTING →
        now - m.lastAttempt < tunnelReconnectDelay m.attempts →
        tstep m (TEvent.pollTick now true env) = m) ∧
    (∀ (m : CloudM) (now : Nat) (connOk : Bool),
        m.state = CState.RECONNECTING →
        now - m.lastAttempt < cloudReconnectDelay m.attempts →
        cstep m (CEvent.pollTick now connOk) = m) ∧
    (∀ (m : TunnelM) (e : TEvent), m.state ≠ TState.CONNECTED →
        (tstep m e).state = TState.CONNECTED → (tstep m e).attempts = 0) ∧
    (∀ (m : CloudM), CReach m → ∀ (e : CEvent),
        m.state ≠ CState.CONNECTED →
        (cstep m e).state = CState.CONNECTED → (cstep m e).attempts = 0) := by
  refine ⟨tunnelReconnectDelay_eq, ?_, ?_, ?_,
          tstep_enter_connected_attempts, ?_⟩
  · intro i hi
    interval_cases i <;> decide
  · intro m now env hst hlt
    obtain ⟨st, so, reg, att, aS, lP, lPo, lA⟩ := m
    simp only at hst
    subst hst
    simp_all [tstep]
  · intro m now connOk hst hlt
    obtain ⟨st, so, att, lAc, lP, lA, aS, fS, cd⟩ := m
    simp only at hst
    subst hst
    simp_all [cstep]
  · intro m hr e hne h
    exact cstep_enter_connected_attempts m e (creach_authinv hr) hne h

/-- Witness for C5 at concrete inputs: a cloud delay below the cap, the
retry guard holding a concrete RECONNECTING state still, and a concrete
welcome step entering CONNECTED with the counter reset. -/
theorem reconnect_backoff_amended_witness :
    cloudReconnectDelay 7 = min (1000 * 2 ^ 7) 60000 ∧
    tstep { tunnelInit true with
              state := TState.RECONNECTING, attempts := 3 }
        (TEvent.pollTick 500 true ⟨200, true, true⟩)
      = { tunnelInit true with
            state := TState.RECONNECTING, attempts := 3 } ∧
    (cstep (cstep cloudInit (CEvent.connectCall 5 true true))
        (CEvent.msgWelcome 8)).attempts = 0 := by
  refine ⟨?_, ?_, ?_⟩
  · exact reconnect_backoff_amended.2.1 7 (by decide)
  · exact reconnect_backoff_amended.2.2.1 _ 500 ⟨200, true, true⟩ (by decide) (by decide)
  · exact reconnect_backoff_amended.2.2.2.2.2
      (cstep cloudInit (CEvent.connectCall 5 true true))
      (CReach.step CReach.init (CEvent.connectCall 5 true true))
      (CEvent.msgWelcome 8) (by decide) (by decide)

/-! ## FAILED-state behaviour (C7) -/

/-- A concrete event trace driving the tunnel machine into FAILED: one
failing `connect()` at t = 0, then eleven reconnect polls 60 s apart,
each failing, until the attempt counter exceeds the maximum. -/
def tunnelFailTrace : List TEvent :=
  TEvent.connectCall 0 true ⟨200, true, false⟩ ::
    (List.range 11).map
      (fun k => TEvent.pollTick (60000 * (k + 1)) true ⟨200, true, false⟩)

/-- The tunnel machine after `tunnelFailTrace`: in FAILED, entered at
t = 660 000 ms. -/
def tunnelFailedState : TunnelM := tunnelFailTrace.foldl tstep (tunnelInit true)

/-- C7 counterexample: the trace above reaches FAILED at t = 660 000 ms,
and a poll 300 001 ms later (well past the claimed 5-minute deadline, with
WiFi up) leaves the `TunnelClient` machine in FAILED — `poll()`'s FAILED
case does nothing, so this variant never transitions FAILED → OFFLINE. -/
theorem tunnel_remains_failed_past_deadline :
    tunnelFailedState.state = TState.FAILED ∧
    tunnelFailedState.lastAttempt = 660000 ∧
    (tstep tunnelFailedState
        (TEvent.pollTick 960001 true ⟨200, true, true⟩)).state
      = TState.FAILED := by
  refine ⟨by decide, by decide, by decide⟩

/-- C7 amended: only the `CloudClient` variant auto-resets FAILED: once
strictly more than 5 minutes (300 000 ms) have elapsed since entering
FAILED, its next poll transitions to OFFLINE with the attempt counter
reset to 0, and polls at or before the deadline leave it unchanged. The
`TunnelClient` variant's poll never leaves FAILED (only an external
`connect()`/`disconnect()` call or WiFi loss does). -/
theorem failed_state_resolution :
    (∀ (m : CloudM) (now : Nat) (connOk : Bool),
        m.state = CState.FAILED → now - m.failedStart > 300000 →
        (cstep m (CEvent.pollTick now connOk)).state = CState.OFFLINE ∧
        (cstep m (CEvent.pollTick now connOk)).attempts = 0) ∧
    (∀ (m : CloudM) (now : Nat) (connOk : Bool),
        m.state = CState.FAILED → now - m.failedStart ≤ 300000 →
        cstep m (CEvent.pollTick now connOk) = m) ∧
    (∀ (m : TunnelM) (now : Nat) (env : ConnEnv),
        m.state = TState.FAILED →
        tstep m (TEvent.pollTick now true env) = m) := by
  refine ⟨?_, ?_, ?_⟩
  · intro m now connOk hst helapsed
    obtain ⟨st, so, att, lAc, lP, lA, aS, fS, cd⟩ := m
    simp only at hst
    subst hst
    simp_all [cstep, ctransition]
  · intro m now connOk hst helapsed
    obtain ⟨st, so, att, lAc, lP, lA, aS, fS, cd⟩ := m
    simp only at hst
    subst hst
    simp_all [cstep]
  · intro m now env hst
    obtain ⟨st, so, reg, att, aS, lP, lPo, lA⟩ := m
    simp only at hst
    subst hst
    simp [tstep]

/-- Witness for C7 (amended) at concrete states: a cloud machine that
entered FAILED at t = 1000 transitions to OFFLINE with attempts reset
when polled at t = 301 001, and the concrete FAILED tunnel state stays
put under poll. -/
theorem failed_state_resolution_witness :
    ((cstep { cloudInit with state := CState.FAILED, failedStart := 1000, attempts := 21 }
        (CEvent.pollTick 301001 true)).state = CState.OFFLINE ∧
     (cstep { cloudInit with state := CState.FAILED, failedStart := 1000, attempts := 21 }
        (CEvent.pollTick 301001 true)).attempts = 0) ∧
    tstep tunnelFailedState (TEvent.pollTick 960001 true ⟨200, true, true⟩)
      = tunnelFailedState := by
  constructor
  · exact failed_state_resolution.1
      { cloudInit with state := CState.FAILED, failedStart := 1000, attempts := 21 }
      301001 true (by decide) (by decide)
  · exact failed_state_resolution.2.2 tunnelFailedState 960001
      ⟨200, true, true⟩ (by decide)

/-! ## Fleet manager (`PrinterManager.cpp`,
`provisioning/PrinterConfigStore.cpp`) and the cloud dispatcher
(`tunnel/TunnelClient.cpp`) -/

/-- `PrinterConfig` from `provisioning/PrinterConfigStore.h` (the `valid`
flag is modelled by `Option` occupancy in the store). -/
structure PrinterCfg where
  id : String := ""
  type : String := ""
  name : String := ""
  ip : String := ""
  port : Nat := 0
  accessCode : String := ""
  serial : String := ""
  apiKey : String := ""
  deriving DecidableEq, Repr

/-- A live adapter instance as `PrinterManager` holds it: the
constructor arguments of `BambuClient` plus its connection state.
`getPrinterId()` returns `id`. -/
structure ClientInfo where
  id : String
  name : String
  ip : String
  accessCode : String
  serial : String
  connected : Bool
  deriving DecidableEq, Repr

/-- The fleet manager state: the persistent slot records
(`printerN` NVS namespaces, `none` = no record or `valid == false`) and
the runtime `_printers` array. `MAX_PRINTERS = 5`. -/
structure Manager where
  store : Fin 5 → Option PrinterCfg
  clients : Fin 5 → Option ClientInfo

/-- The empty slot table. -/
def emptyManager : Manager := { store := fun _ => none, clients := fun _ => none }

/-- `PrinterConfigStore::findAvailableSlot` lines 295-302: the lowest
slot without a valid record. -/
def findAvailableSlot (store : Fin 5 → Option PrinterCfg) : Option (Fin 5) :=
  (List.finRange 5).find? (fun i => (store i).isNone)

/-- `TunnelClient::findPrinterBySerial` lines 708-719: the first slot
whose live adapter's `getPrinterId()` — the `id` field, not the serial —
equals the argument. -/
def findPrinterById (m : Manager) (wanted : String) : Option (Fin 5) :=
  (List.finRange 5).find?
    (fun i => match m.clients i with
              | some cl => cl.id = wanted
              | none => false)

/-- `PrinterManager::addPrinter` lines 85-121 with
`PrinterConfigStore::savePrinter`'s validation (lines 111-125: type and
IP must be non-empty; the NVS write itself is modelled as succeeding)
and `PrinterManager::createClient` lines 59-83 (only `"bambu"` yields an
adapter; on factory failure the just-persisted record is removed again).
`connOk` is the outcome of the adapter's auto-`connect()`. Returns the
new state and the slot (`none` models the C++ return value −1). -/
def addPrinter (m : Manager) (c : PrinterCfg) (connOk : Bool) :
    Manager × Option (Fin 5) :=
  match findAvailableSlot m.store with
  | none => (m, none)
  | some slot =>
    if c.type = "" ∨ c.ip = "" then (m, none)
    else
      let store' := Function.update m.store slot (some c)
      if c.type = "bambu" then
        let client : ClientInfo :=
          { id := c.id, name := c.name, ip := c.ip
            accessCode := c.accessCode, serial := c.serial
            connected := connOk }
        ({ store := store'
           clients := Function.update m.clients slot (some client) },
         some slot)
      else
        ({ m with store := Function.update store' slot none }, none)

/-- `PrinterManager::removePrinter` lines 123-136: disconnect and delete
the adapter, erase the persisted record. -/
def removePrinterSlot (m : Manager) (slot : Fin 5) : Manager :=
  { store := Function.update m.store slot none
    clients := Function.update m.clients slot none }

/-- A printer object inside a `configure_printer` frame. -/
structure PrinterObj where
  id : Option String := none
  serial_number : Option String := none
  connection_type : Option String := none
  access_code : Option String := none
  ip_address : Option String := none
  deriving DecidableEq, Repr

/-- An inbound cloud frame whose JSON envelope parsed: the fields the
dispatcher reads. `none` models an absent key. -/
structure CloudFrame where
  type : Option String := none
  command_id : Option String := none
  action : Option String := none
  printer_id : Option String := none
  printer : Option PrinterObj := none
  deriving DecidableEq, Repr

/-- An outbound `command_ack` (`TunnelClient::sendCommandAck`
lines 442-458; `error` is attached only on failure and when non-empty,
modelled by carrying the string, `""` = absent). -/
structure Ack where
  command_id : String
  success : Bool
  error : String
  deriving DecidableEq, Repr

/-- `sendCommandAck` + `sendMessage` lines 523-530: the ack reaches the
wire only while the WebSocket is available. -/
def sendAck (wsAvail : Bool) (cid : String) (success : Bool) (error : String) :
    List Ack :=
  if wsAvail then [{ command_id := cid, success := success, error := error }] else []

/-- Environment outcomes a dispatch step consumes: socket availability,
the auto-connect result of a freshly added adapter, and the transport
result of a forwarded printer command. -/
structure DispatchEnv where
  wsAvail : Bool
  connOk : Bool
  cmdOk : Bool
  deriving DecidableEq, Repr

/-- `TunnelClient::handleConfigurePrinter` lines 235-343. Returns the
new manager state and the emitted acks. Missing `command_id` or
`action` logs and returns without an ack; every other path acks
exactly once. -/
def handleConfigurePrinter (env : DispatchEnv) (m : Manager) (doc : CloudFrame) :
    Manager × List Ack :=
  match doc.command_id, doc.action with
  | some cid, some action =>
    match doc.printer with
    | none => (m, sendAck env.wsAvail cid false "Missing printer object")
    | some p =>
      if action = "add" then
        match p.serial_number, p.connection_type with
        | some sn, some ct =>
          let config : PrinterCfg :=
            { id := p.id.getD "", type := ct, name := sn, serial := sn
              accessCode := p.access_code.getD ""
              ip := p.ip_address.getD "", port := 8883 }
          match addPrinter m config env.connOk with
          | (m', some _) => (m', sendAck env.wsAvail cid true "")
          | (m', none) =>
            (m', sendAck env.wsAvail cid false
                  "Failed to add printer - no free slots")
        | _, _ =>
          (m, sendAck env.wsAvail cid false
                "Missing serial_number or connection_type")
      else if action = "remove" then
        match p.serial_number with
        | none => (m, sendAck env.wsAvail cid false "Missing serial_number")
        | some sn =>
          match findPrinterById m sn with
          | some slot => (removePrinterSlot m slot, sendAck env.wsAvail cid true "")
          | none => (m, sendAck env.wsAvail cid false "Printer not found")
      else if action = "update" then
        match p.serial_number with
        | none => (m, sendAck env.wsAvail cid false "Missing serial_number")
        | some sn =>
          match findPrinterById m sn with
          | none => (m, sendAck env.wsAvail cid false "Printer not found")
          | some slot =>
            let m2 := removePrinterSlot m slot
            let config : PrinterCfg :=
              { id := p.id.getD "", type := ct0 p, name := sn, serial := sn
                accessCode := p.access_code.getD ""
                ip := p.ip_address.getD "", port := 8883 }
            match addPrinter m2 config env.connOk with
            | (m', some _) => (m', sendAck env.wsAvail cid true "")
            | (m', none) =>
              (m', sendAck env.wsAvail cid false
                    "Failed to re-add printer after update")
      else (m, sendAck env.wsAvail cid false ("Unknown action: " ++ action))
  | _, _ => (m, [])
where
  /-- `config.type = connectionType ? String(connectionType) : "bambu"`
  on the update path (line 322), where `connection_type` may be null. -/
  ct0 (p : PrinterObj) : String := p.connection_type.getD "bambu"

/-- `TunnelClient::handlePrinterCommand` lines 345-393. Missing
`command_id`, `printer_id` or `action` returns without an ack. -/
def handlePrinterCommand (env : DispatchEnv) (m : Manager) (doc : CloudFrame) :
    Manager × List Ack :=
  match doc.command_id, doc.printer_id, doc.action with
  | some cid, some pid, some action =>
    match findPrinterById m pid with
    | none => (m, sendAck env.wsAvail cid false "Printer not found")
    | some slot =>
      let isConn := match m.clients slot with
                    | some cl => cl.connected
                    | none => false
      if isConn = false then
        (m, sendAck env.wsAvail cid false "Printer not connected")
      else if action = "pause" then
        (m, sendAck env.wsAvail cid env.cmdOk
              (if env.cmdOk then "" else "Pause command failed"))
      else if action = "resume" then
        (m, sendAck env.wsAvail cid env.cmdOk
              (if env.cmdOk then "" else "Resume command failed"))
      else if action = "stop" then
        (m, sendAck env.wsAvail cid env.cmdOk
              (if env.cmdOk then "" else "Stop command failed"))
      else if action = "clear_bed" then
        (m, sendAck env.wsAvail cid true "")
      else (m, sendAck env.wsAvail cid false ("Unknown action: " ++ action))
  | _, _, _ => (m, [])

/-- `TunnelClient::onMessage` lines 175-216 routing a parsed frame with a
`type` field, plus `handlePrintCommand` lines 395-404,
`handleDiscoverPrinters` lines 406-415 (both ack "not yet implemented"
with `doc["command_id"]`, an absent one becoming the empty string) and
`handleError` / `handleHubWelcome` / unknown types (no ack; the
`hub_welcome` state transition lives in the tunnel machine model). -/
def dispatch (env : DispatchEnv) (m : Manager) (doc : CloudFrame) :
    Manager × List Ack :=
  match doc.type with
  | none => (m, [])
  | some t =>
    if t = "hub_welcome" then (m, [])
    else if t = "configure_printer" then handleConfigurePrinter env m doc
    else if t = "printer_command" then handlePrinterCommand env m doc
    else if t = "print_command" then
      (m, sendAck env.wsAvail (doc.command_id.getD "") false
            "print_command not yet implemented")
    else if t = "discover_printers" then
      (m, sendAck env.wsAvail (doc.command_id.getD "") false
            "discover_printers not yet implemented")
    else if t = "error" then (m, [])
    else (m, [])

/-- Number of emitted acks echoing a given `command_id`. -/
def acksFor (cid : String) (l : List Ack) : Nat :=
  (l.filter (fun a => a.command_id == cid)).length

/-- The frame shapes for which the dispatcher acks (the amended C1
condition): `print_command` and `discover_printers` always;
`configure_printer` only with an `action` field; `printer_command` only
with both `printer_id` and `action`; nothing else. -/
def ackShape (f : CloudFrame) : Bool :=
  match f.type with
  | none => false
  | some t =>
    if t = "hub_welcome" then false
    else if t = "configure_printer" then f.action.isSome
    else if t = "printer_command" then f.printer_id.isSome && f.action.isSome
    else if t = "print_command" then true
    else if t = "discover_printers" then true
    else false

lemma acksFor_sendAck (cid : String) (b : Bool) (e : String) :
    acksFor cid (sendAck true cid b e) = 1 := by
  simp [acksFor, sendAck]

lemma handleConfigurePrinter_acks (env : DispatchEnv) (m : Manager)
    (doc : CloudFrame) (cid a : String) (hw : env.wsAvail = true)
    (hc : doc.command_id = some cid) (ha : doc.action = some a) :
    acksFor cid (handleConfigurePrinter env m doc).2 = 1 := by
  obtain ⟨wa, co, cm⟩ := env
  simp only at hw
  subst hw
  simp only [handleConfigurePrinter, hc, ha]
  rcases doc.printer with _ | p
  · simp [acksFor_sendAck]
  · simp only
    split_ifs with h1 h2 h3
    · rcases hsn : p.serial_number with _ | sn <;>
        rcases hct : p.connection_type with _ | ct <;>
        simp only [hsn, hct]
      · simp [acksFor_sendAck]
      · simp [acksFor_sendAck]
      · simp [acksFor_sendAck]
      · rcases hadd : addPrinter m
            { id := p.id.getD "", type := ct, name := sn, serial := sn
              accessCode := p.access_code.getD ""
              ip := p.ip_address.getD "", port := 8883 } co
          with ⟨m', r⟩
        rcases r with _ | slot <;> simp [hadd, acksFor_sendAck]
    · rcases hsn : p.serial_number with _ | sn <;> simp only [hsn]
      · simp [acksFor_sendAck]
      · rcases hf : findPrinterById m sn with _ | slot <;>
          simp [hf, acksFor_sendAck]
    · rcases hsn : p.serial_number with _ | sn <;> simp only [hsn]
      · simp [acksFor_sendAck]
      · rcases hf : findPrinterById m sn with _ | slot <;> simp only [hf]
        · simp [acksFor_sendAck]
        · rcases hadd : addPrinter (removePrinterSlot m slot)
              { id := p.id.getD ""
                type := handleConfigurePrinter.ct0 p, name := sn
                serial := sn, accessCode := p.access_code.getD ""
                ip := p.ip_address.getD "", port := 8883 } co
            with ⟨m', r⟩
          rcases r with _ | s2 <;> simp [hadd, acksFor_sendAck]
    · simp [acksFor_sendAck]

lemma handlePrinterCommand_acks (env : DispatchEnv) (m : Manager)
    (doc : CloudFrame) (cid pid a : String) (hw : env.wsAvail = true)
    (hc : doc.command_id = some cid) (hp : doc.printer_id = some pid)
    (ha : doc.action = some a) :
    acksFor cid (handlePrinterCommand env m doc).2 = 1 := by
  obtain ⟨wa, co, cm⟩ := env
  simp only at hw
  subst hw
  simp only [handlePrinterCommand, hc, hp, ha]
  rcases hf : findPrinterById m pid with _ | slot <;> simp only [hf]
  · simp [acksFor_sendAck]
  · split_ifs <;> simp [acksFor_sendAck]

/-- C1 amended: for a dispatched frame whose envelope parsed and that
carries a `command_id`, exactly one `command_ack` echoing that id is
emitted — while the socket is available — precisely when the frame is a
`print_command`, a `discover_printers`, a `configure_printer` with an
`action` field, or a `printer_command` with both `printer_id` and
`action` (invalid payload bodies such as a missing printer object or an
unknown action still get their single failure ack). A
`configure_printer` missing `action`, a `printer_command` missing
`printer_id` or `action`, and `hub_welcome` / `error` / unknown-type
frames emit zero acks. -/
theorem ack_exclusivity_amended (env : DispatchEnv) (m : Manager)
    (f : CloudFrame) (cid : String) (hw : env.wsAvail = true)
    (hc : f.command_id = some cid) :
    acksFor cid (dispatch env m f).2 = (if ackShape f then 1 else 0) := by
  rcases hty : f.type with _ | t
  · simp [dispatch, ackShape, hty, acksFor]
  · by_cases h1 : t = "hub_welcome"
    · simp [dispatch, ackShape, hty, h1, acksFor]
    · by_cases h2 : t = "configure_printer"
      · rcases ha : f.action with _ | a
        · simp [dispatch, ackShape, hty, h1, h2, ha,
                handleConfigurePrinter, hc, acksFor]
        · have key := handleConfigurePrinter_acks env m f cid a hw hc ha
          simp [dispatch, ackShape, hty, h1, h2, ha, key]
      · by_cases h3 : t = "printer_command"
        · rcases hp : f.printer_id with _ | pid <;>
            rcases ha : f.action with _ | a
          · simp [dispatch, ackShape, hty, h1, h2, h3, hp, ha,
                  handlePrinterCommand, hc, acksFor]
          · simp [dispatch, ackShape, hty, h1, h2, h3, hp, ha,
                  handlePrinterCommand, hc, acksFor]
          · simp [dispatch, ackShape, hty, h1, h2, h3, hp, ha,
                  handlePrinterCommand, hc, acksFor]
          · have key := handlePrinterCommand_acks env m f cid pid a hw hc hp ha
            simp [dispatch, ackShape, hty, h1, h2, h3, hp, ha, key]
        · by_cases h4 : t = "print_command"
          · simp [dispatch, ackShape, hty, h1, h2, h3, h4, hc, hw,
                  sendAck, acksFor]
          · by_cases h5 : t = "discover_printers"
            · simp [dispatch, ackShape, hty, h1, h2, h3, h4, h5, hc, hw,
                    sendAck, acksFor]
            · by_cases h6 : t = "error" <;>
                simp [dispatch, ackShape, hty, h1, h2, h3, h4, h5, h6, acksFor]

/-- Witness for the amended C1 at concrete frames: a `configure_printer`
with an unknown action still acks exactly once, and a `printer_command`
missing its `action` acks zero times. -/
theorem ack_exclusivity_amended_witness :
    acksFor "c7" (dispatch ⟨true, true, true⟩ emptyManager
        { type := some "configure_printer", command_id := some "c7"
          action := some "rename", printer := some {} }).2 = 1 ∧
    acksFor "c8" (dispatch ⟨true, true, true⟩ emptyManager
        { type := some "printer_command", command_id := some "c8"
          printer_id := some "S1" }).2 = 0 := by
  constructor
  · have h := ack_exclusivity_amended ⟨true, true, true⟩ emptyManager
      { type := some "configure_printer", command_id := some "c7"
        action := some "rename", printer := some {} } "c7" rfl rfl
    simpa [ackShape] using h
  · have h := ack_exclusivity_amended ⟨true, true, true⟩ emptyManager
      { type := some "printer_command", command_id := some "c8"
        printer_id := some "S1" } "c8" rfl rfl
    simpa [ackShape] using h

/-- C1 counterexample: a `configure_printer` frame whose envelope parsed
and that carries `command_id = "c1"` but no `action` produces zero
acks (the handler's missing-required-fields path returns before
`sendCommandAck`), not the exactly-one the claim states — with the
socket available throughout. -/
theorem configure_printer_missing_action_no_ack :
    (dispatch ⟨true, true, true⟩ emptyManager
        { type := some "configure_printer", command_id := some "c1"
          printer := some { serial_number := some "S1"
                            connection_type := some "bambu"
                            access_code := some "12345678"
                            ip_address := some "10.0.0.5" } }).2 = [] := by
  rfl

/-! ## Slot-table uniqueness (C6) and add-failure atomicity (C10) -/

/-- Two slot records do not carry the same (vendor, serial) pair
(vacuously true when either slot is free). -/
def slotPairDistinct : Option PrinterCfg → Option PrinterCfg → Bool
  | some ci, some cj => !(ci.type == cj.type && ci.serial == cj.serial)
  | _, _ => true

/-- No two occupied store slots share a (vendor, serial) pair. -/
def uniqueStore (s : Fin 5 → Option PrinterCfg) : Prop :=
  ∀ i j : Fin 5, i ≠ j → slotPairDistinct (s i) (s j) = true

/-- The §3 invariant (iv) on the fleet manager's slot table. -/
def uniquePairs (m : Manager) : Prop := uniqueStore m.store

/-- No occupied slot of `m` already holds the (vendor, serial) pair
`(ty, sn)`. -/
def pairFreshB (m : Manager) (ty sn : String) : Bool :=
  (List.finRange 5).all fun i =>
    match m.store i with
    | some c => !(c.type == ty && c.serial == sn)
    | none => true

/-- Guard of the amended C6: an `add` frame must carry a (vendor, serial)
pair not already occupying a slot; anything else is unconstrained. -/
def addGuardB (m : Manager) (f : CloudFrame) : Bool :=
  if f.action = some "add" then
    match f.printer with
    | some p =>
      match p.serial_number, p.connection_type with
      | some sn, some ct => pairFreshB m ct sn
      | _, _ => true
    | none => true
  else true

/-- The frame is a `configure_printer` add or remove. -/
def isAddRemB (f : CloudFrame) : Bool :=
  f.type == some "configure_printer" &&
    (f.action == some "add" || f.action == some "remove")

/-- The manager after one dispatched frame. -/
def stepMgr (env : DispatchEnv) (m : Manager) (f : CloudFrame) : Manager :=
  (dispatch env m f).1

/-- Every frame of the sequence is an add/remove, and every add is fresh
at the moment it is applied. -/
def freshSeqB (env : DispatchEnv) : Manager → List CloudFrame → Bool
  | _, [] => true
  | m, f :: fs => isAddRemB f && addGuardB m f && freshSeqB env (stepMgr env m f) fs

lemma slotPairDistinct_none_left (x : Option PrinterCfg) :
    slotPairDistinct none x = true := by
  cases x <;> rfl

lemma slotPairDistinct_none_right (x : Option PrinterCfg) :
    slotPairDistinct x none = true := by
  cases x <;> rfl

lemma uniqueStore_update_none (s : Fin 5 → Option PrinterCfg) (k : Fin 5)
    (h : uniqueStore s) : uniqueStore (Function.update s k none) := by
  intro i j hij
  simp only [Function.update_apply]
  split_ifs with hi hj
  · exact slotPairDistinct_none_left _
  · exact slotPairDistinct_none_left _
  · exact slotPairDistinct_none_right _
  · exact h i j hij

lemma pairFreshB_spec {m : Manager} {ty sn : String}
    (h : pairFreshB m ty sn = true) (i : Fin 5) (c : PrinterCfg)
    (hc : m.store i = some c) : ¬(c.type = ty ∧ c.serial = sn) := by
  simp only [pairFreshB, List.all_eq_true] at h
  have hi := h i (List.mem_finRange i)
  rw [hc] at hi
  simp only [Bool.not_eq_true', Bool.and_eq_false_iff, beq_eq_false_iff_ne,
    ne_eq] at hi
  tauto

lemma uniqueStore_update_fresh (s : Fin 5 → Option PrinterCfg) (k : Fin 5)
    (c : PrinterCfg) (h : uniqueStore s)
    (hf : ∀ i c', s i = some c' → ¬(c'.type = c.type ∧ c'.serial = c.serial)) :
    uniqueStore (Function.update s k (some c)) := by
  intro i j hij
  simp only [Function.update_apply]
  split_ifs with hi hj
  · exact absurd (hi.trans hj.symm) hij
  · rcases hsj : s j with _ | cj
    · exact slotPairDistinct_none_right _
    · have := hf j cj hsj
      simp only [slotPairDistinct, Bool.not_eq_eq_eq_not, Bool.not_true,
        Bool.and_eq_false_iff, beq_eq_false_iff_ne, ne_eq]
      by_contra hcon
      push_neg at hcon
      exact this ⟨hcon.1.symm, hcon.2.symm⟩
  · rcases hsi : s i with _ | ci
    · exact slotPairDistinct_none_left _
    · have := hf i ci hsi
      simp only [slotPairDistinct, Bool.not_eq_eq_eq_not, Bool.not_true,
        Bool.and_eq_false_iff, beq_eq_false_iff_ne, ne_eq]
      by_contra hcon
      push_neg at hcon
      exact this ⟨hcon.1, hcon.2⟩
  · exact h i j hij

lemma addPrinter_preserves_unique (m : Manager) (c : PrinterCfg)
    (connOk : Bool) (hu : uniquePairs m)
    (hf : pairFreshB m c.type c.serial = true) :
    uniquePairs (addPrinter m c connOk).1 := by
  unfold addPrinter
  rcases hs : findAvailableSlot m.store with _ | slot
  · exact hu
  · simp only
    split_ifs with h1 h2
    · exact hu
    · exact uniqueStore_update_fresh m.store slot c hu
        (fun i c' hc => pairFreshB_spec hf i c' hc)
    · show uniqueStore (Function.update (Function.update m.store slot (some c)) slot none)
      rw [Function.update_idem]
      exact uniqueStore_update_none m.store slot hu

lemma dispatch_configure (env : DispatchEnv) (m : Manager) (doc : CloudFrame)
    (h : doc.type = some "configure_printer") :
    dispatch env m doc = handleConfigurePrinter env m doc := by
  rcases doc with ⟨ty, cido, acto, pido, pro⟩
  simp only at h
  subst h
  rfl

lemma stepMgr_preserves_unique (env : DispatchEnv) (m : Manager)
    (f : CloudFrame) (hu : uniquePairs m) (har : isAddRemB f = true)
    (hg : addGuardB m f = true) : uniquePairs (stepMgr env m f) := by
  have hty : f.type = some "configure_printer" := by
    simp only [isAddRemB, Bool.and_eq_true, beq_iff_eq] at har
    exact har.1
  have hact : f.action = some "add" ∨ f.action = some "remove" := by
    simp only [isAddRemB, Bool.and_eq_true, beq_iff_eq, Bool.or_eq_true] at har
    exact har.2
  unfold stepMgr
  rw [dispatch_configure env m f hty]
  rcases hcid : f.command_id with _ | cid
  · rcases hac : f.action with _ | a <;>
      simp [handleConfigurePrinter, hcid, hac, hu]
  · rcases hact with hac | hac <;> simp only [handleConfigurePrinter, hcid, hac]
    · -- add
      rcases hpr : f.printer with _ | p
      · exact hu
      · simp only [reduceIte]
        rcases hsn : p.serial_number with _ | sn <;>
          rcases hct : p.connection_type with _ | ct <;> simp only
        · exact hu
        · exact hu
        · exact hu
        · have hfresh : pairFreshB m ct sn = true := by
            simp only [addGuardB, hac, hpr, hsn, hct, reduceIte] at hg
            exact hg
          rcases hadd : addPrinter m
              { id := p.id.getD "", type := ct, name := sn, serial := sn
                accessCode := p.access_code.getD ""
                ip := p.ip_address.getD "", port := 8883 } env.connOk
            with ⟨m', r⟩
          have := addPrinter_preserves_unique m
            { id := p.id.getD "", type := ct, name := sn, serial := sn
              accessCode := p.access_code.getD ""
              ip := p.ip_address.getD "", port := 8883 } env.connOk hu hfresh
          rw [hadd] at this
          rcases r with _ | slot <;> simpa [hadd] using this
    · -- remove
      rcases hpr : f.printer with _ | p
      · exact hu
      · simp only [reduceIte]
        rcases hsn : p.serial_number with _ | sn <;> simp only
        · exact hu
        · rcases hf : findPrinterById m sn with _ | slot <;> simp only [hf]
          · exact hu
          · exact uniqueStore_update_none m.store slot hu

lemma freshSeq_preserves_unique (env : DispatchEnv) (fs : List CloudFrame) :
    ∀ m : Manager, uniquePairs m → freshSeqB env m fs = true →
      uniquePairs (fs.foldl (stepMgr env) m) := by
  induction fs with
  | nil => intro m hu _; exact hu
  | cons f rest ih =>
    intro m hu hseq
    simp only [freshSeqB, Bool.and_eq_true] at hseq
    obtain ⟨⟨har, hg⟩, hrest⟩ := hseq
    exact ih (stepMgr env m f)
      (stepMgr_preserves_unique env m f hu har hg) hrest

/-- C6 amended: after any sequence of dispatched `configure_printer`
add/remove frames starting from the empty slot table, no two occupied
slots share a (vendor, serial) pair — provided every add's pair is
fresh when applied. Neither `PrinterManager::addPrinter` nor the
dispatcher checks for an existing serial, so an add whose (vendor,
serial) pair already occupies a slot creates a duplicate occupied slot
(see the counterexample). -/
theorem slot_pair_uniqueness_amended (env : DispatchEnv)
    (fs : List CloudFrame) (hseq : freshSeqB env emptyManager fs = true) :
    uniquePairs (fs.foldl (stepMgr env) emptyManager) := by
  refine freshSeq_preserves_unique env fs emptyManager ?_ hseq
  intro i j hij
  exact slotPairDistinct_none_left _

/-- The `configure_printer add` frame of scenario S3. -/
def addS1Frame : CloudFrame :=
  { type := some "configure_printer", command_id := some "c1"
    action := some "add"
    printer := some { id := some "p1", serial_number := some "S1"
                      connection_type := some "bambu"
                      access_code := some "12345678"
                      ip_address := some "10.0.0.5" } }

/-- A matching remove frame (`findPrinterBySerial` matches on the live
adapter's id, here `"p1"`). -/
def removeP1Frame : CloudFrame :=
  { type := some "configure_printer", command_id := some "c2"
    action := some "remove"
    printer := some { serial_number := some "p1" } }

/-- Witness for the amended C6 on a concrete fresh add/remove sequence. -/
theorem slot_pair_uniqueness_witness :
    freshSeqB ⟨true, true, true⟩ emptyManager [addS1Frame, removeP1Frame] = true ∧
    uniquePairs ([addS1Frame, removeP1Frame].foldl
      (stepMgr ⟨true, true, true⟩) emptyManager) := by
  refine ⟨by decide, ?_⟩
  exact slot_pair_uniqueness_amended ⟨true, true, true⟩
    [addS1Frame, removeP1Frame] (by decide)

/-- C6 counterexample: dispatching the same `add` frame twice from the
empty table occupies slots 0 and 1 with the same ("bambu", "S1") pair —
the code never checks an incoming serial against existing slots, so the
claimed invariant fails. -/
theorem duplicate_serial_occupies_two_slots :
    ((([addS1Frame, addS1Frame].foldl (stepMgr ⟨true, true, true⟩)
        emptyManager).store 0).map (fun c => (c.type, c.serial))
      = some ("bambu", "S1")) ∧
    ((([addS1Frame, addS1Frame].foldl (stepMgr ⟨true, true, true⟩)
        emptyManager).store 1).map (fun c => (c.type, c.serial))
      = some ("bambu", "S1")) ∧
    ¬ uniquePairs ([addS1Frame, addS1Frame].foldl
        (stepMgr ⟨true, true, true⟩) emptyManager) := by
  refine ⟨by decide, by decide, ?_⟩
  intro h
  have := h 0 1 (by decide)
  revert this
  decide

/-- C10: adding a printer whose vendor tag is not a known adapter type
(anything other than `"bambu"`) returns −1 (modelled `none`) and leaves
both the slot table and the persistent store exactly unchanged: the
record persisted before adapter creation is removed from the same slot
again (and a config failing the store's validation is never persisted
at all). -/
theorem addPrinter_unknown_vendor_atomic (m : Manager) (c : PrinterCfg)
    (connOk : Bool) (h : c.type ≠ "bambu") :
    addPrinter m c connOk = (m, none) := by
  unfold addPrinter
  rcases hs : findAvailableSlot m.store with _ | slot
  · rfl
  · have hnone : m.store slot = none := by
      have := List.find?_some hs
      simpa [Option.isNone_iff_eq_none] using this
    by_cases h1 : c.type = "" ∨ c.ip = ""
    · simp only [if_pos h1]
    · have hst : Function.update (Function.update m.store slot (some c)) slot none
          = m.store := by
        rw [Function.update_idem, ← hnone]
        exact Function.update_eq_self slot m.store
      simp only [if_neg h1, if_neg h]
      cases m
      simp_all

/-- Witness for C10 at a concrete unknown-vendor configuration. -/
theorem addPrinter_unknown_vendor_atomic_witness :
    addPrinter emptyManager
        { id := "oct-1", type := "octoprint", name := "O1"
          ip := "10.0.0.7", serial := "S9" } true
      = (emptyManager, none) := by
  exact addPrinter_unknown_vendor_atomic emptyManager
    { id := "oct-1", type := "octoprint", name := "O1"
      ip := "10.0.0.7", serial := "S9" } true (by decide)

end APF
